import Mathlib

/-!
Shallow embedding of the presignature lifecycle manager
(`src/node/src/protocol/presignature.rs`) and proofs about its claims.

Rust `HashMap<K, V>` values are embedded as association lists
`List (Nat × V)` with the operations `lookupA`, `insertA`, `eraseA`
mirroring `get`/`insert`/`remove`; iteration order of the embedding is a
fixed list order (the source iterates a `HashMap` in unspecified order, and
no proved statement depends on the order across distinct generator
entries).  `u64` identifiers are embedded as `Nat` (no claim involves
wrap-around arithmetic on identifiers).  Randomness (`rand::random()`) and
wall-clock time (`Instant::now()`, `elapsed()`) are passed in as explicit
arguments: the random draw becomes an `id` argument and every poke takes a
`now` argument, with `elapsed = now - timestamp`.
-/

/-- Participants are embedded as natural numbers (cait-sith `Participant`
is an opaque identifier type). -/
abbrev Participant := Nat

/-- Unique number used to identify a specific ongoing presignature
generation protocol (`pub type PresignatureId = u64`). -/
abbrev PresignatureId := Nat

/-- Identifier of a triple (`TripleId` from the triple module). -/
abbrev TripleId := Nat

/-! ### Association lists standing in for `HashMap` -/

/-- Lookup in an association list; embeds `HashMap::get`. -/
def lookupA {α : Type} (k : Nat) : List (Nat × α) → Option α
  | [] => none
  | kv :: rest => if kv.1 = k then some kv.2 else lookupA k rest

/-- Remove a key from an association list; embeds `HashMap::remove`
(dropping the removed value). -/
def eraseA {α : Type} (k : Nat) : List (Nat × α) → List (Nat × α)
  | [] => []
  | kv :: rest => if kv.1 = k then eraseA k rest else kv :: eraseA k rest

/-- Insert a binding, replacing any existing binding for the key; embeds
`HashMap::insert`. -/
def insertA {α : Type} (k : Nat) (v : α) (l : List (Nat × α)) : List (Nat × α) :=
  (k, v) :: eraseA k l

/-- The keys of an association list. -/
def keysA {α : Type} (l : List (Nat × α)) : List Nat :=
  l.map Prod.fst

@[simp] theorem keysA_nil {α : Type} : keysA ([] : List (Nat × α)) = [] := rfl

@[simp] theorem keysA_cons {α : Type} (kv : Nat × α) (l : List (Nat × α)) :
    keysA (kv :: l) = kv.1 :: keysA l := rfl

theorem lookupA_eq_none {α : Type} (k : Nat) (l : List (Nat × α)) :
    lookupA k l = none ↔ k ∉ keysA l := by
  induction l with
  | nil => simp [lookupA, keysA]
  | cons kv rest ih =>
    by_cases h : kv.1 = k <;> simp [lookupA, keysA, h, ih] <;> simp [keysA] at ih <;>
      tauto

theorem lookupA_isSome {α : Type} (k : Nat) (l : List (Nat × α)) :
    (lookupA k l).isSome = true ↔ k ∈ keysA l := by
  induction l with
  | nil => simp [lookupA, keysA]
  | cons kv rest ih =>
    by_cases h : kv.1 = k <;> simp [lookupA, keysA, h] <;> simp [keysA] at ih <;>
      tauto

theorem mem_keysA_of_lookupA {α : Type} {k : Nat} {l : List (Nat × α)} {v : α}
    (h : lookupA k l = some v) : k ∈ keysA l := by
  rw [← lookupA_isSome, h]
  rfl

theorem lookupA_eraseA_self {α : Type} (k : Nat) (l : List (Nat × α)) :
    lookupA k (eraseA k l) = none := by
  induction l with
  | nil => rfl
  | cons kv rest ih =>
    by_cases h : kv.1 = k <;> simp [eraseA, h, lookupA, ih]

theorem lookupA_eraseA_of_ne {α : Type} {k j : Nat} (l : List (Nat × α))
    (h : j ≠ k) : lookupA j (eraseA k l) = lookupA j l := by
  induction l with
  | nil => rfl
  | cons kv rest ih =>
    by_cases hk : kv.1 = k
    · simp [eraseA, hk, lookupA, h, Ne.symm h, ih]
    · by_cases hj : kv.1 = j <;> simp [eraseA, hk, lookupA, hj, h, Ne.symm h, ih]

theorem lookupA_insertA_self {α : Type} (k : Nat) (v : α) (l : List (Nat × α)) :
    lookupA k (insertA k v l) = some v := by
  simp [insertA, lookupA]

theorem lookupA_insertA_of_ne {α : Type} {k j : Nat} (v : α) (l : List (Nat × α))
    (h : j ≠ k) : lookupA j (insertA k v l) = lookupA j l := by
  have hk : k ≠ j := fun hkj => h hkj.symm
  simp [insertA, lookupA, hk]
  exact lookupA_eraseA_of_ne l h

theorem mem_keysA_eraseA {α : Type} {j k : Nat} {l : List (Nat × α)}
    (h : j ∈ keysA (eraseA k l)) : j ∈ keysA l := by
  induction l with
  | nil => simpa [eraseA] using h
  | cons kv rest ih =>
    by_cases hk : kv.1 = k
    · rw [show eraseA k (kv :: rest) = eraseA k rest by simp [eraseA, hk]] at h
      exact List.mem_cons_of_mem _ (ih h)
    · rw [show eraseA k (kv :: rest) = kv :: eraseA k rest by simp [eraseA, hk]] at h
      rw [keysA_cons] at h ⊢
      rcases List.mem_cons.mp h with h1 | h2
      · exact List.mem_cons.mpr (Or.inl h1)
      · exact List.mem_cons_of_mem _ (ih h2)

theorem mem_keysA_insertA {α : Type} {j k : Nat} {v : α} {l : List (Nat × α)}
    (h : j ∈ keysA (insertA k v l)) : j = k ∨ j ∈ keysA l := by
  simp [insertA, keysA] at h
  rcases h with h | h
  · exact Or.inl h
  · exact Or.inr (mem_keysA_eraseA (by simpa [keysA] using h))

theorem eraseA_eq_of_not_mem {α : Type} {k : Nat} {l : List (Nat × α)}
    (h : k ∉ keysA l) : eraseA k l = l := by
  induction l with
  | nil => rfl
  | cons kv rest ih =>
    simp [keysA] at h
    push_neg at h
    have h1 : kv.1 ≠ k := fun hh => h.1 hh.symm
    have h2 : k ∉ keysA rest := by simpa [keysA] using h.2
    simp [eraseA, h1, ih h2]

theorem keysA_insertA_of_not_mem {α : Type} {k : Nat} (v : α) {l : List (Nat × α)}
    (h : k ∉ keysA l) : keysA (insertA k v l) = k :: keysA l := by
  simp [insertA, keysA, eraseA_eq_of_not_mem h]

/-! ### Data model of the presignature module -/

/-- Error type of the external cait-sith protocol engine.  The source
treats `ProtocolError` as opaque; the only value this module constructs is
`ProtocolError::Other(anyhow!("presignature protocol timed out"))`, so the
embedding keeps a single `Other` constructor whose `Nat` payload stands for
the boxed error value. -/
inductive ProtocolError where
  | Other (code : Nat)
deriving DecidableEq, Repr

/-- The timed-out error built at `PresignatureGenerator::poke`; payload `0`
stands for the anyhow message "presignature protocol timed out". -/
def presignatureTimedOut : ProtocolError := ProtocolError.Other 0

/-- One action of the external engine (`cait_sith::protocol::Action`): the
closed variant set Wait / SendMany / SendPrivate / Return.  Payload bytes
are embedded as `Nat`; the terminal `PresignOutput` is embedded as `Nat`
(opaque artifact).  Named `ProtocolAction` because `Action` is already
taken by the ambient library; `SendPrivate`'s target participant is named
`dest` because `to` is a Lean keyword. -/
inductive ProtocolAction where
  | Wait
  | SendMany (data : Nat)
  | SendPrivate (dest : Participant) (data : Nat)
  | Return (out : Nat)
deriving DecidableEq, Repr

deriving instance DecidableEq for Except

/-- Modelled from the spec: the external cait-sith engine
(`crate::types::PresignatureProtocol`, not under the given sources) is a
black-box resumable state machine whose `poke()` returns either an `Action`
or a `ProtocolError`.  It is embedded as the script of results its
successive `poke()` calls produce; consuming the head is one `poke()`.  An
exhausted script keeps answering `Wait` (a stalled engine). -/
abbrev PresignatureProtocol := List (Except ProtocolError ProtocolAction)

/-- Modelled from the spec: the fixed protocol timeout
`crate::types::PROTOCOL_TIMEOUT` (not under the given sources).  Elapsed
times are embedded as `Nat` ticks; the concrete bound is irrelevant to
every claim. -/
def PROTOCOL_TIMEOUT : Nat := 100

/-- Modelled from the spec: an outbound message
(`super::message::PresignatureMessage`, not under the given sources)
carries the presignature identifier, the two triple identifiers, the
generation epoch, the sender identity (`from` in the source, a Lean
keyword) and the engine-opaque payload bytes. -/
structure PresignatureMessage where
  id : PresignatureId
  triple0 : TripleId
  triple1 : TripleId
  epoch : Nat
  sender : Participant
  data : Nat
deriving DecidableEq, Repr

/-- A completed presignature: identifier plus the opaque protocol output
(`PresignOutput<Secp256k1>` embedded as `Nat`). -/
structure Presignature where
  id : PresignatureId
  output : Nat
deriving DecidableEq, Repr

/-- A single-use triple (from the triple module): identifier plus the
share/public material consumed by the engine, both embedded as `Nat`. -/
structure Triple where
  id : TripleId
  share : Nat
  public : Nat
deriving DecidableEq, Repr

/-- Modelled from the spec: the Triple Source
(`super::triple::TripleManager`, not under the given sources), reduced to
its stock of available triples keyed by identifier. -/
structure TripleManager where
  triples : List (TripleId × Triple)
deriving DecidableEq, Repr

/-- Modelled from the spec: `TripleManager::take_two(id0, id1, exclusive)`
atomically removes and returns both triples, or fails naming the first
missing identifier with no partial removal. -/
def TripleManager.take_two (tm : TripleManager) (id0 id1 : TripleId)
    (_exclusive : Bool) : Except TripleId (Triple × Triple × TripleManager) :=
  match lookupA id0 tm.triples, lookupA id1 tm.triples with
  | none, _ => Except.error id0
  | some _, none => Except.error id1
  | some t0, some t1 =>
    Except.ok (t0, t1, { triples := eraseA id1 (eraseA id0 tm.triples) })

/-- cait-sith `InitializationError`, opaque to this module; the `Nat`
payload stands for the boxed error value. -/
structure InitializationError where
  code : Nat
deriving DecidableEq, Repr

/-- `GenerationError` from the source. -/
inductive GenerationError where
  | AlreadyGenerated
  | TripleIsMissing (id : TripleId)
  | CaitSithInitializationError (e : InitializationError)
deriving DecidableEq, Repr

/-- An ongoing presignature generator (`PresignatureGenerator`): the
engine instance, the two consumed triple ids, whether this node initiated
the generation, and the creation time (`Instant` embedded as a `Nat`
tick). -/
structure PresignatureGenerator where
  protocol : PresignatureProtocol
  triple0 : TripleId
  triple1 : TripleId
  mine : Bool
  timestamp : Nat
deriving DecidableEq, Repr

/-- `PresignatureGenerator::new`; `Instant::now()` is the explicit `now`
argument. -/
def PresignatureGenerator.new (protocol : PresignatureProtocol)
    (triple0 triple1 : TripleId) (mine : Bool) (now : Nat) :
    PresignatureGenerator :=
  { protocol := protocol, triple0 := triple0, triple1 := triple1,
    mine := mine, timestamp := now }

/-- `PresignatureGenerator::poke`: if the elapsed time since creation
exceeds `PROTOCOL_TIMEOUT` it fails immediately with the timed-out
`ProtocolError` without consulting the engine (the script is untouched);
otherwise it delegates to the engine, consuming one script step. -/
def PresignatureGenerator.poke (g : PresignatureGenerator) (now : Nat) :
    Except ProtocolError ProtocolAction × PresignatureGenerator :=
  if PROTOCOL_TIMEOUT < now - g.timestamp then
    (Except.error presignatureTimedOut, g)
  else
    match g.protocol with
    | [] => (Except.ok ProtocolAction.Wait, g)
    | step :: rest => (step, { g with protocol := rest })

/-- The state of `PresignatureManager`: completed unspent presignatures,
ongoing generators, the queue of self-initiated completed ids, and the
immutable configuration. -/
structure PresignatureManager where
  presignatures : List (PresignatureId × Presignature)
  generators : List (PresignatureId × PresignatureGenerator)
  mine : List PresignatureId
  participants : List Participant
  me : Participant
  threshold : Nat
  epoch : Nat
deriving DecidableEq, Repr

/-- `PresignatureManager::new`. -/
def PresignatureManager.new (participants : List Participant)
    (me : Participant) (threshold : Nat) (epoch : Nat) : PresignatureManager :=
  { presignatures := [], generators := [], mine := [],
    participants := participants, me := me, threshold := threshold,
    epoch := epoch }

/-- `PresignatureManager::len`. -/
def PresignatureManager.len (m : PresignatureManager) : Nat :=
  m.presignatures.length

/-- `PresignatureManager::my_len`. -/
def PresignatureManager.my_len (m : PresignatureManager) : Nat :=
  m.mine.length

/-- `PresignatureManager::potential_len`. -/
def PresignatureManager.potential_len (m : PresignatureManager) : Nat :=
  m.presignatures.length + m.generators.length

/-- `PresignatureManager::generate`: starts a self-initiated generation.
The random draw `rand::random()` is the explicit `id` argument; the
outcome of the external engine construction
(`cait_sith::presign(participants, me, PresignArguments { .. })` inside
`generate_internal`, a function of the two triples, key material and
configuration) is the explicit `presign` argument.  On success a generator
with `mine = true` is inserted under `id` with no uniqueness check. -/
def PresignatureManager.generate (m : PresignatureManager)
    (id : PresignatureId) (triple0 triple1 : Triple)
    (presign : Except InitializationError PresignatureProtocol)
    (now : Nat) : Except InitializationError PresignatureManager :=
  match presign with
  | Except.error e => Except.error e
  | Except.ok script =>
    Except.ok { m with generators :=
      (insertA id
        (PresignatureGenerator.new script triple0.id triple1.id true now)
        m.generators) }

/-- `PresignatureManager::get_or_generate`: join-or-continue for an
incoming id.  Branch order follows the source: completed id fails with
`AlreadyGenerated`; an existing generator is returned as-is (the returned
`PresignatureProtocol` embeds the `&mut` handle); otherwise both triples
are reserved atomically from the Triple Source, the engine is constructed
(`presign`, a function of the two reserved triples), and a generator with
`mine = false` is stored.  The final manager and triple-manager states are
always returned alongside the result, matching the `&mut` mutation in the
source (in particular an engine-construction failure keeps the consumed
triples removed). -/
def PresignatureManager.get_or_generate (m : PresignatureManager)
    (tm : TripleManager) (id : PresignatureId) (triple0 triple1 : TripleId)
    (presign : Triple → Triple → Except InitializationError PresignatureProtocol)
    (now : Nat) :
    Except GenerationError PresignatureProtocol × PresignatureManager × TripleManager :=
  if (lookupA id m.presignatures).isSome then
    (Except.error GenerationError.AlreadyGenerated, m, tm)
  else
    match lookupA id m.generators with
    | some g => (Except.ok g.protocol, m, tm)
    | none =>
      match tm.take_two triple0 triple1 false with
      | Except.error missing =>
        (Except.error (GenerationError.TripleIsMissing missing), m, tm)
      | Except.ok (tr0, tr1, tm2) =>
        match presign tr0 tr1 with
        | Except.error e =>
          (Except.error (GenerationError.CaitSithInitializationError e), m, tm2)
        | Except.ok script =>
          (Except.ok script,
           { m with generators :=
               (insertA id
                 (PresignatureGenerator.new script tr0.id tr1.id false now)
                 m.generators) },
           tm2)

/-- `PresignatureManager::take_mine`: pops the oldest self-initiated
completed id and removes+returns its presignature.  The outer `Option` is
the panic dimension: `none` embeds the `.unwrap()` panic on a queued id
with no matching map entry; every normal return is `some`. -/
def PresignatureManager.take_mine (m : PresignatureManager) :
    Option (Option Presignature × PresignatureManager) :=
  match m.mine with
  | [] => some (none, m)
  | id :: rest =>
    match lookupA id m.presignatures with
    | some p =>
      some (some p,
        { m with mine := rest, presignatures := eraseA id m.presignatures })
    | none => none

/-- `PresignatureManager::take`: removes and returns the presignature for
`id` if present, regardless of origin. -/
def PresignatureManager.take (m : PresignatureManager) (id : PresignatureId) :
    Option Presignature × PresignatureManager :=
  match lookupA id m.presignatures with
  | some p => (some p, { m with presignatures := eraseA id m.presignatures })
  | none => (none, m)

/-! ### The poke loop (`PresignatureManager::poke`, lines 243-306) -/

/-- Outcome of driving one generator inside `PresignatureManager::poke`:
`Retained` embeds the closure returning `true` from `Action::Wait`
(keeping the generator with its remaining engine state), `Completed`
embeds `Action::Return` (the generator is promoted and not retained), and
`Failed` embeds the error branch (the generator is dropped). -/
inductive GenOutcome where
  | Retained (script : PresignatureProtocol)
  | Completed (out : Nat)
  | Failed (e : ProtocolError)
deriving DecidableEq, Repr

/-- The inner `loop` of `PresignatureManager::poke` for one generator
entry `(id, g)`: repeatedly calls `PresignatureGenerator::poke`
(timeout check then engine step), emitting one message per participant
for `SendMany` and one message for `SendPrivate`, until `Wait`, `Return`
or an error stops the loop.  The timeout guard is repeated in every
branch because `PresignatureGenerator::poke` re-checks it on each loop
iteration (the guard does not depend on the script, so it fires before
any engine step exactly as in the source).  Messages carry the
presignature id, the two triple ids of the generator, the manager epoch
and the manager identity as sender, exactly as built at lines 261-286 of
the source. -/
def pokeLoop (ps : List Participant) (me : Participant) (epoch : Nat)
    (id : PresignatureId) (t0 t1 : TripleId) (timestamp now : Nat) :
    PresignatureProtocol →
    List (Participant × PresignatureMessage) × GenOutcome
  | [] =>
    if PROTOCOL_TIMEOUT < now - timestamp then
      ([], GenOutcome.Failed presignatureTimedOut)
    else ([], GenOutcome.Retained [])
  | Except.error e :: _ =>
    if PROTOCOL_TIMEOUT < now - timestamp then
      ([], GenOutcome.Failed presignatureTimedOut)
    else ([], GenOutcome.Failed e)
  | Except.ok ProtocolAction.Wait :: rest =>
    if PROTOCOL_TIMEOUT < now - timestamp then
      ([], GenOutcome.Failed presignatureTimedOut)
    else ([], GenOutcome.Retained rest)
  | Except.ok (ProtocolAction.Return out) :: _ =>
    if PROTOCOL_TIMEOUT < now - timestamp then
      ([], GenOutcome.Failed presignatureTimedOut)
    else ([], GenOutcome.Completed out)
  | Except.ok (ProtocolAction.SendMany data) :: rest =>
    if PROTOCOL_TIMEOUT < now - timestamp then
      ([], GenOutcome.Failed presignatureTimedOut)
    else
      let r := pokeLoop ps me epoch id t0 t1 timestamp now rest
      (ps.map (fun p =>
        (p, { id := id, triple0 := t0, triple1 := t1, epoch := epoch,
              sender := me, data := data })) ++ r.1, r.2)
  | Except.ok (ProtocolAction.SendPrivate p data) :: rest =>
    if PROTOCOL_TIMEOUT < now - timestamp then
      ([], GenOutcome.Failed presignatureTimedOut)
    else
      let r := pokeLoop ps me epoch id t0 t1 timestamp now rest
      ((p, { id := id, triple0 := t0, triple1 := t1, epoch := epoch,
             sender := me, data := data }) :: r.1, r.2)

/-- The accumulated effect of `generators.retain(..)` inside
`PresignatureManager::poke`: the collected messages, the retained
generators, the updated completed map and mine queue, and the last error
set by a failing generator (the `result` variable of the source). -/
structure PokeAcc where
  messages : List (Participant × PresignatureMessage)
  generators : List (PresignatureId × PresignatureGenerator)
  presignatures : List (PresignatureId × Presignature)
  mine : List PresignatureId
  err : Option ProtocolError
deriving DecidableEq, Repr

/-- Combination of the `result` variable across generators: each failing
generator overwrites `result`, so the later error (second argument) wins
when present. -/
def lastErr (e1 e2 : Option ProtocolError) : Option ProtocolError :=
  match e2 with
  | some e => some e
  | none => e1

@[simp] theorem lastErr_none_right (e1 : Option ProtocolError) :
    lastErr e1 none = e1 := rfl

@[simp] theorem lastErr_some_right (e1 : Option ProtocolError)
    (e : ProtocolError) : lastErr e1 (some e) = some e := rfl

theorem lastErr_none_left (e2 : Option ProtocolError) :
    lastErr none e2 = e2 := by
  cases e2 <;> rfl

/-- The `generators.retain(..)` traversal of `PresignatureManager::poke`:
drives every generator entry in order with `pokeLoop`, keeps `Retained`
ones (with their advanced engine state), promotes `Completed` ones into
the presignature map (appending to the mine queue when `generator.mine`),
and drops `Failed` ones while recording the error into `result`. -/
def pokeGens (ps : List Participant) (me : Participant) (epoch now : Nat) :
    List (PresignatureId × PresignatureGenerator) →
    List (PresignatureId × Presignature) → List PresignatureId → PokeAcc
  | [], presigs, mineq =>
    { messages := [], generators := [], presignatures := presigs,
      mine := mineq, err := none }
  | (id, g) :: rest, presigs, mineq =>
    match pokeLoop ps me epoch id g.triple0 g.triple1 g.timestamp now g.protocol with
    | (ms, GenOutcome.Retained script2) =>
      let rr := pokeGens ps me epoch now rest presigs mineq
      { messages := ms ++ rr.messages,
        generators := (id, { g with protocol := script2 }) :: rr.generators,
        presignatures := rr.presignatures, mine := rr.mine, err := rr.err }
    | (ms, GenOutcome.Completed out) =>
      let rr := pokeGens ps me epoch now rest
        (insertA id { id := id, output := out } presigs)
        (if g.mine then mineq ++ [id] else mineq)
      { messages := ms ++ rr.messages, generators := rr.generators,
        presignatures := rr.presignatures, mine := rr.mine, err := rr.err }
    | (ms, GenOutcome.Failed e) =>
      let rr := pokeGens ps me epoch now rest presigs mineq
      { messages := ms ++ rr.messages, generators := rr.generators,
        presignatures := rr.presignatures, mine := rr.mine,
        err := lastErr (some e) rr.err }

/-- `PresignatureManager::poke`: advances every ongoing generator,
mutating the manager state through the retain traversal, and finally
returns `result.map(|_| messages)`: the full message batch when no
generator failed, and the recorded error (with the batch discarded)
otherwise.  The mutated manager state is returned in both cases. -/
def PresignatureManager.poke (m : PresignatureManager) (now : Nat) :
    Except ProtocolError (List (Participant × PresignatureMessage)) ×
      PresignatureManager :=
  let acc := pokeGens m.participants m.me m.epoch now m.generators
    m.presignatures m.mine
  let m2 := { m with
    generators := acc.generators
    presignatures := acc.presignatures
    mine := acc.mine }
  match acc.err with
  | none => (Except.ok acc.messages, m2)
  | some e => (Except.error e, m2)

/-! ### Structural lemmas about the retain traversal -/

theorem lastErr_assoc (a b c : Option ProtocolError) :
    lastErr (lastErr a b) c = lastErr a (lastErr b c) := by
  cases c <;> cases b <;> rfl

theorem pokeGens_append (ps : List Participant) (me : Participant)
    (epoch now : Nat) (l1 l2 : List (PresignatureId × PresignatureGenerator)) :
    ∀ (presigs : List (PresignatureId × Presignature))
      (mineq : List PresignatureId),
    pokeGens ps me epoch now (l1 ++ l2) presigs mineq =
      { messages := (pokeGens ps me epoch now l1 presigs mineq).messages ++
          (pokeGens ps me epoch now l2
            (pokeGens ps me epoch now l1 presigs mineq).presignatures
            (pokeGens ps me epoch now l1 presigs mineq).mine).messages
        generators := (pokeGens ps me epoch now l1 presigs mineq).generators ++
          (pokeGens ps me epoch now l2
            (pokeGens ps me epoch now l1 presigs mineq).presignatures
            (pokeGens ps me epoch now l1 presigs mineq).mine).generators
        presignatures := (pokeGens ps me epoch now l2
            (pokeGens ps me epoch now l1 presigs mineq).presignatures
            (pokeGens ps me epoch now l1 presigs mineq).mine).presignatures
        mine := (pokeGens ps me epoch now l2
            (pokeGens ps me epoch now l1 presigs mineq).presignatures
            (pokeGens ps me epoch now l1 presigs mineq).mine).mine
        err := lastErr (pokeGens ps me epoch now l1 presigs mineq).err
          (pokeGens ps me epoch now l2
            (pokeGens ps me epoch now l1 presigs mineq).presignatures
            (pokeGens ps me epoch now l1 presigs mineq).mine).err } := by
  induction l1 with
  | nil =>
    intro presigs mineq
    simp [pokeGens, lastErr_none_left]
  | cons hd tl ih =>
    intro presigs mineq
    obtain ⟨id, g⟩ := hd
    rcases hr : pokeLoop ps me epoch id g.triple0 g.triple1 g.timestamp now
      g.protocol with ⟨ms, o⟩
    cases o <;>
      simp [pokeGens, hr, ih, List.append_assoc, lastErr_assoc]

theorem pokeGens_gens_subset (ps : List Participant) (me : Participant)
    (epoch now : Nat) :
    ∀ (gens : List (PresignatureId × PresignatureGenerator))
      (presigs : List (PresignatureId × Presignature))
      (mineq : List PresignatureId) (j : Nat),
      j ∈ keysA (pokeGens ps me epoch now gens presigs mineq).generators →
      j ∈ keysA gens := by
  intro gens
  induction gens with
  | nil => intro presigs mineq j h; simpa [pokeGens] using h
  | cons hd tl ih =>
    intro presigs mineq j h
    obtain ⟨id, g⟩ := hd
    rcases hr : pokeLoop ps me epoch id g.triple0 g.triple1 g.timestamp now
      g.protocol with ⟨ms, o⟩
    cases o with
    | Retained script2 =>
      simp [pokeGens, hr] at h
      rcases h with h | h
      · simp [h]
      · exact List.mem_cons_of_mem _ (ih presigs mineq j h)
    | Completed out =>
      simp [pokeGens, hr] at h
      exact List.mem_cons_of_mem _ (ih _ _ j h)
    | Failed e =>
      simp [pokeGens, hr] at h
      exact List.mem_cons_of_mem _ (ih presigs mineq j h)

theorem pokeGens_presigs_lookup (ps : List Participant) (me : Participant)
    (epoch now : Nat) :
    ∀ (gens : List (PresignatureId × PresignatureGenerator))
      (presigs : List (PresignatureId × Presignature))
      (mineq : List PresignatureId) (j : Nat),
      j ∉ keysA gens →
      lookupA j (pokeGens ps me epoch now gens presigs mineq).presignatures =
        lookupA j presigs := by
  intro gens
  induction gens with
  | nil => intro presigs mineq j _; simp [pokeGens]
  | cons hd tl ih =>
    intro presigs mineq j hj
    obtain ⟨id, g⟩ := hd
    rw [keysA_cons] at hj
    have hj1 : j ≠ id := fun hh => hj (by simp [hh])
    have hj2 : j ∉ keysA tl := fun hh => hj (List.mem_cons_of_mem _ hh)
    rcases hr : pokeLoop ps me epoch id g.triple0 g.triple1 g.timestamp now
      g.protocol with ⟨ms, o⟩
    cases o with
    | Retained script2 => simp [pokeGens, hr, ih _ _ j hj2]
    | Completed out =>
      simp [pokeGens, hr, ih _ _ j hj2, lookupA_insertA_of_ne _ _ hj1]
    | Failed e => simp [pokeGens, hr, ih _ _ j hj2]

theorem pokeGens_presigs_keys (ps : List Participant) (me : Participant)
    (epoch now : Nat) :
    ∀ (gens : List (PresignatureId × PresignatureGenerator))
      (presigs : List (PresignatureId × Presignature))
      (mineq : List PresignatureId) (j : Nat),
      j ∈ keysA (pokeGens ps me epoch now gens presigs mineq).presignatures →
      j ∈ keysA presigs ∨ j ∈ keysA gens := by
  intro gens
  induction gens with
  | nil => intro presigs mineq j h; simp [pokeGens] at h; exact Or.inl h
  | cons hd tl ih =>
    intro presigs mineq j h
    obtain ⟨id, g⟩ := hd
    rcases hr : pokeLoop ps me epoch id g.triple0 g.triple1 g.timestamp now
      g.protocol with ⟨ms, o⟩
    cases o with
    | Retained script2 =>
      simp [pokeGens, hr] at h
      rcases ih _ _ j h with h2 | h2
      · exact Or.inl h2
      · exact Or.inr (List.mem_cons_of_mem _ h2)
    | Completed out =>
      simp [pokeGens, hr] at h
      rcases ih _ _ j h with h2 | h2
      · rcases mem_keysA_insertA h2 with h3 | h3
        · exact Or.inr (by simp [h3])
        · exact Or.inl h3
      · exact Or.inr (List.mem_cons_of_mem _ h2)
    | Failed e =>
      simp [pokeGens, hr] at h
      rcases ih _ _ j h with h2 | h2
      · exact Or.inl h2
      · exact Or.inr (List.mem_cons_of_mem _ h2)

theorem pokeGens_disjoint (ps : List Participant) (me : Participant)
    (epoch now : Nat) :
    ∀ (gens : List (PresignatureId × PresignatureGenerator))
      (presigs : List (PresignatureId × Presignature))
      (mineq : List PresignatureId),
      (keysA gens).Nodup →
      (∀ j ∈ keysA presigs, j ∉ keysA gens) →
      ∀ j ∈ keysA (pokeGens ps me epoch now gens presigs mineq).presignatures,
        j ∉ keysA (pokeGens ps me epoch now gens presigs mineq).generators := by
  intro gens
  induction gens with
  | nil => intro presigs mineq _ _ j _; simp [pokeGens]
  | cons hd tl ih =>
    intro presigs mineq hnd hdisj j hj
    obtain ⟨id, g⟩ := hd
    rw [keysA_cons] at hnd
    have hndid : id ∉ keysA tl := (List.nodup_cons.mp hnd).1
    have hndtl : (keysA tl).Nodup := (List.nodup_cons.mp hnd).2
    rcases hr : pokeLoop ps me epoch id g.triple0 g.triple1 g.timestamp now
      g.protocol with ⟨ms, o⟩
    cases o with
    | Retained script2 =>
      have hdisj2 : ∀ i ∈ keysA presigs, i ∉ keysA tl := fun i hi hh =>
        hdisj i hi (List.mem_cons_of_mem _ hh)
      simp [pokeGens, hr] at hj ⊢
      constructor
      · rcases pokeGens_presigs_keys ps me epoch now tl presigs mineq j hj
          with h2 | h2
        · exact fun hh => hdisj j h2 (by simp [hh])
        · exact fun hh => hndid (hh ▸ h2)
      · exact ih presigs mineq hndtl hdisj2 j hj
    | Completed out =>
      have hdisj2 : ∀ i ∈ keysA (insertA id { id := id, output := out } presigs),
          i ∉ keysA tl := by
        intro i hi
        rcases mem_keysA_insertA hi with h3 | h3
        · exact h3 ▸ hndid
        · exact fun hh => hdisj i h3 (List.mem_cons_of_mem _ hh)
      simp [pokeGens, hr] at hj ⊢
      exact ih _ _ hndtl hdisj2 j hj
    | Failed e =>
      have hdisj2 : ∀ i ∈ keysA presigs, i ∉ keysA tl := fun i hi hh =>
        hdisj i hi (List.mem_cons_of_mem _ hh)
      simp [pokeGens, hr] at hj ⊢
      exact ih presigs mineq hndtl hdisj2 j hj

theorem pokeLoop_timeout (ps : List Participant) (me : Participant)
    (epoch : Nat) (id : PresignatureId) (t0 t1 : TripleId)
    (timestamp now : Nat) (script : PresignatureProtocol)
    (h : PROTOCOL_TIMEOUT < now - timestamp) :
    pokeLoop ps me epoch id t0 t1 timestamp now script =
      ([], GenOutcome.Failed presignatureTimedOut) := by
  match script with
  | [] => simp [pokeLoop, h]
  | Except.error e :: rest => simp [pokeLoop, h]
  | Except.ok ProtocolAction.Wait :: rest => simp [pokeLoop, h]
  | Except.ok (ProtocolAction.Return out) :: rest => simp [pokeLoop, h]
  | Except.ok (ProtocolAction.SendMany data) :: rest => simp [pokeLoop, h]
  | Except.ok (ProtocolAction.SendPrivate p data) :: rest => simp [pokeLoop, h]

/-! ### Claim theorems -/

/-- Claim C6: for every manager state and every id that is a key of the
presignatures map, `get_or_generate` returns the `AlreadyGenerated` error,
creates no generator, and leaves both the manager and the triple source
unchanged. -/
theorem C6_already_generated (m : PresignatureManager) (tm : TripleManager)
    (id : PresignatureId) (t0 t1 : TripleId)
    (presign : Triple → Triple → Except InitializationError PresignatureProtocol)
    (now : Nat)
    (h : (lookupA id m.presignatures).isSome = true) :
    m.get_or_generate tm id t0 t1 presign now =
      (Except.error GenerationError.AlreadyGenerated, m, tm) := by
  simp [PresignatureManager.get_or_generate, h]

def c6presig : Presignature := { id := 5, output := 77 }

def c6m : PresignatureManager :=
  { presignatures := [(5, c6presig)], generators := [], mine := [5],
    participants := [0, 1], me := 0, threshold := 2, epoch := 3 }

def c6tm : TripleManager := { triples := [] }

def presignNever : Triple → Triple →
    Except InitializationError PresignatureProtocol :=
  fun _ _ => Except.ok []

/-- Witness for C6 at a concrete state. -/
theorem C6_already_generated_witness :
    (lookupA 5 c6m.presignatures).isSome = true ∧
    c6m.get_or_generate c6tm 5 100 101 presignNever 0 =
      (Except.error GenerationError.AlreadyGenerated, c6m, c6tm) :=
  ⟨by decide, C6_already_generated c6m c6tm 5 100 101 presignNever 0 (by decide)⟩

/-- Claim C10: `take(id)` removes and returns the presignature when `id`
is present (regardless of origin, which the statement does not inspect),
returns `none` and leaves the state unchanged when absent; consequently a
second `take` of the same id returns `none`. -/
theorem C10_take (m : PresignatureManager) (id : PresignatureId) :
    (∀ p, lookupA id m.presignatures = some p →
      m.take id =
        (some p, { m with presignatures := eraseA id m.presignatures }) ∧
      ({ m with presignatures := eraseA id m.presignatures } :
        PresignatureManager).take id =
        (none, { m with presignatures := eraseA id m.presignatures })) ∧
    (lookupA id m.presignatures = none → m.take id = (none, m)) := by
  constructor
  · intro p hp
    constructor
    · simp [PresignatureManager.take, hp]
    · simp [PresignatureManager.take, lookupA_eraseA_self]
  · intro hn
    simp [PresignatureManager.take, hn]

def c10m : PresignatureManager :=
  { presignatures := [(4, { id := 4, output := 9 }), (6, { id := 6, output := 8 })],
    generators := [], mine := [6],
    participants := [0, 1], me := 1, threshold := 2, epoch := 0 }

/-- Witness for C10 at a concrete state: id 4 is present (and not mine),
id 12 is absent. -/
theorem C10_take_witness :
    (lookupA 4 c10m.presignatures = some { id := 4, output := 9 } ∧
      c10m.take 4 = (some { id := 4, output := 9 },
        { c10m with presignatures := eraseA 4 c10m.presignatures }) ∧
      ({ c10m with presignatures := eraseA 4 c10m.presignatures } :
        PresignatureManager).take 4 =
        (none, { c10m with presignatures := eraseA 4 c10m.presignatures })) ∧
    (lookupA 12 c10m.presignatures = none ∧ c10m.take 12 = (none, c10m)) :=
  ⟨⟨by decide, (C10_take c10m 4).1 _ (by decide)⟩,
   ⟨by decide, (C10_take c10m 12).2 (by decide)⟩⟩

/-- Claim C4: under the internal-consistency precondition that every
identifier in the mine queue has a matching entry in the presignatures
map, `take_mine` returns no presignature exactly when the queue is empty,
otherwise it pops the front identifier and removes+returns its
presignature; the `.unwrap()` panic branch (embedded as the outer `none`)
is unreachable. -/
theorem C4_take_mine (m : PresignatureManager)
    (hinv : ∀ id ∈ m.mine, (lookupA id m.presignatures).isSome = true) :
    (m.mine = [] → m.take_mine = some (none, m)) ∧
    (∀ id rest, m.mine = id :: rest →
      ∃ p, lookupA id m.presignatures = some p ∧
        m.take_mine = some (some p,
          { m with mine := rest,
                   presignatures := eraseA id m.presignatures })) ∧
    m.take_mine ≠ none := by
  refine ⟨?_, ?_, ?_⟩
  · intro h
    simp [PresignatureManager.take_mine, h]
  · intro id rest h
    have hid : (lookupA id m.presignatures).isSome = true :=
      hinv id (by simp [h])
    rcases Option.isSome_iff_exists.mp hid with ⟨p, hp⟩
    exact ⟨p, hp, by simp [PresignatureManager.take_mine, h, hp]⟩
  · intro hcon
    rcases hm : m.mine with _ | ⟨id, rest⟩
    · simp [PresignatureManager.take_mine, hm] at hcon
    · have hid : (lookupA id m.presignatures).isSome = true :=
        hinv id (by simp [hm])
      rcases Option.isSome_iff_exists.mp hid with ⟨p, hp⟩
      simp [PresignatureManager.take_mine, hm, hp] at hcon

def c4m : PresignatureManager :=
  { presignatures := [(3, { id := 3, output := 30 }), (8, { id := 8, output := 80 })],
    generators := [], mine := [3, 8],
    participants := [0, 1, 2], me := 2, threshold := 2, epoch := 1 }

/-- Witness for C4 at a concrete consistent state with a non-empty queue. -/
theorem C4_take_mine_witness :
    (∀ id ∈ c4m.mine, (lookupA id c4m.presignatures).isSome = true) ∧
    ((c4m.mine = [] → c4m.take_mine = some (none, c4m)) ∧
     (∀ id rest, c4m.mine = id :: rest →
       ∃ p, lookupA id c4m.presignatures = some p ∧
         c4m.take_mine = some (some p,
           { c4m with mine := rest,
                      presignatures := eraseA id c4m.presignatures })) ∧
     c4m.take_mine ≠ none) :=
  ⟨by decide, C4_take_mine c4m (by decide)⟩

/-- Claim C9: inside one `poke()`, a generator whose engine emits a
Broadcast (`SendMany`) action makes the manager loop emit exactly one
outbound message per configured participant — the whole participant list
mapped to the same payload — each carrying the presignature id, the
generator's two triple ids, the manager epoch and the manager identity as
sender; the loop then continues with the rest of the script. -/
theorem C9_broadcast (ps : List Participant) (me : Participant)
    (epoch : Nat) (id : PresignatureId) (t0 t1 : TripleId)
    (timestamp now : Nat) (data : Nat) (rest : PresignatureProtocol)
    (ht : ¬ PROTOCOL_TIMEOUT < now - timestamp) :
    (pokeLoop ps me epoch id t0 t1 timestamp now
        (Except.ok (ProtocolAction.SendMany data) :: rest)).1 =
      ps.map (fun p =>
        (p, { id := id, triple0 := t0, triple1 := t1, epoch := epoch,
              sender := me, data := data })) ++
      (pokeLoop ps me epoch id t0 t1 timestamp now rest).1 ∧
    (pokeLoop ps me epoch id t0 t1 timestamp now
        (Except.ok (ProtocolAction.SendMany data) :: rest)).1.length =
      ps.length +
      (pokeLoop ps me epoch id t0 t1 timestamp now rest).1.length ∧
    (∀ p ∈ ps,
      (p, ({ id := id, triple0 := t0, triple1 := t1, epoch := epoch,
             sender := me, data := data } : PresignatureMessage)) ∈
        (pokeLoop ps me epoch id t0 t1 timestamp now
          (Except.ok (ProtocolAction.SendMany data) :: rest)).1) ∧
    (pokeLoop ps me epoch id t0 t1 timestamp now
        (Except.ok (ProtocolAction.SendMany data) :: rest)).2 =
      (pokeLoop ps me epoch id t0 t1 timestamp now rest).2 := by
  refine ⟨?_, ?_, ?_, ?_⟩
  · simp [pokeLoop, ht]
  · simp [pokeLoop, ht]
  · intro p hp
    rw [show (pokeLoop ps me epoch id t0 t1 timestamp now
        (Except.ok (ProtocolAction.SendMany data) :: rest)).1 =
      ps.map (fun p =>
        (p, { id := id, triple0 := t0, triple1 := t1, epoch := epoch,
              sender := me, data := data })) ++
      (pokeLoop ps me epoch id t0 t1 timestamp now rest).1 from by
        simp [pokeLoop, ht]]
    exact List.mem_append_left _ (List.mem_map_of_mem _ hp)
  · simp [pokeLoop, ht]

/-- Witness for C9: the spec scenario with three participants; the
broadcast action produces exactly three messages. -/
theorem C9_broadcast_witness :
    (¬ PROTOCOL_TIMEOUT < 0 - 0) ∧
    ((pokeLoop [0, 1, 2] 0 9 7 100 101 0 0
        (Except.ok (ProtocolAction.SendMany 5) ::
          [Except.ok (ProtocolAction.Return 42)])).1 =
      [0, 1, 2].map (fun p =>
        (p, { id := 7, triple0 := 100, triple1 := 101, epoch := 9,
              sender := 0, data := 5 })) ++
      (pokeLoop [0, 1, 2] 0 9 7 100 101 0 0
        [Except.ok (ProtocolAction.Return 42)]).1 ∧
     (pokeLoop [0, 1, 2] 0 9 7 100 101 0 0
        (Except.ok (ProtocolAction.SendMany 5) ::
          [Except.ok (ProtocolAction.Return 42)])).1.length =
      [0, 1, 2].length +
      (pokeLoop [0, 1, 2] 0 9 7 100 101 0 0
        [Except.ok (ProtocolAction.Return 42)]).1.length ∧
     (∀ p ∈ [0, 1, 2],
       (p, ({ id := 7, triple0 := 100, triple1 := 101, epoch := 9,
              sender := 0, data := 5 } : PresignatureMessage)) ∈
         (pokeLoop [0, 1, 2] 0 9 7 100 101 0 0
           (Except.ok (ProtocolAction.SendMany 5) ::
             [Except.ok (ProtocolAction.Return 42)])).1) ∧
     (pokeLoop [0, 1, 2] 0 9 7 100 101 0 0
        (Except.ok (ProtocolAction.SendMany 5) ::
          [Except.ok (ProtocolAction.Return 42)])).2 =
      (pokeLoop [0, 1, 2] 0 9 7 100 101 0 0
        [Except.ok (ProtocolAction.Return 42)]).2) :=
  ⟨by decide, C9_broadcast [0, 1, 2] 0 9 7 100 101 0 0 5
    [Except.ok (ProtocolAction.Return 42)] (by decide)⟩

/-- Claim C8: for an unknown id, when the atomic pair reservation at the
Triple Source fails, `get_or_generate` returns `TripleIsMissing` naming a
genuinely absent triple id (one of the two requested), inserts no
generator, and leaves both the manager and the triple source unchanged —
no partial reservation occurs. -/
theorem C8_triple_missing (m : PresignatureManager) (tm : TripleManager)
    (id : PresignatureId) (t0 t1 : TripleId)
    (presign : Triple → Triple → Except InitializationError PresignatureProtocol)
    (now : Nat) (missing : TripleId)
    (hpres : lookupA id m.presignatures = none)
    (hgen : lookupA id m.generators = none)
    (hmiss : tm.take_two t0 t1 false = Except.error missing) :
    m.get_or_generate tm id t0 t1 presign now =
      (Except.error (GenerationError.TripleIsMissing missing), m, tm) ∧
    lookupA missing tm.triples = none ∧
    (missing = t0 ∨ missing = t1) := by
  refine ⟨?_, ?_⟩
  · simp [PresignatureManager.get_or_generate, hpres, hgen, hmiss]
  · rcases h0 : lookupA t0 tm.triples with _ | tr0
    · simp [TripleManager.take_two, h0] at hmiss
      exact ⟨hmiss ▸ h0, Or.inl hmiss.symm⟩
    · rcases h1 : lookupA t1 tm.triples with _ | tr1
      · simp [TripleManager.take_two, h0, h1] at hmiss
        exact ⟨hmiss ▸ h1, Or.inr hmiss.symm⟩
      · simp [TripleManager.take_two, h0, h1] at hmiss

def c8tm : TripleManager :=
  { triples := [(100, { id := 100, share := 1, public := 2 })] }

def c8m : PresignatureManager := PresignatureManager.new [0, 1] 0 2 4

/-- Witness for C8: triple 101 is absent from the source, so joining id 9
fails naming 101, with the present triple 100 left unreserved. -/
theorem C8_triple_missing_witness :
    (lookupA 9 c8m.presignatures = none ∧
     lookupA 9 c8m.generators = none ∧
     c8tm.take_two 100 101 false = Except.error 101) ∧
    (c8m.get_or_generate c8tm 9 100 101 presignNever 0 =
       (Except.error (GenerationError.TripleIsMissing 101), c8m, c8tm) ∧
     lookupA 101 c8tm.triples = none ∧
     (101 = 100 ∨ 101 = 101)) :=
  ⟨⟨by decide, by decide, by decide⟩,
   C8_triple_missing c8m c8tm 9 100 101 presignNever 0 101
     (by decide) (by decide) (by decide)⟩

/-- Claim C7: `get_or_generate` is an idempotent join.  For an id with an
existing in-flight generator it returns that generator's protocol handle
and changes nothing.  For a previously-unknown id (with both triples
available and the engine constructible) it stores exactly one new
generator, and an immediately repeated call for the same id returns the
same protocol and changes nothing — two calls create one generator, not
two. -/
theorem C7_idempotent_join (m : PresignatureManager) (tm : TripleManager)
    (id : PresignatureId) (t0 t1 : TripleId)
    (presign : Triple → Triple → Except InitializationError PresignatureProtocol)
    (now now2 : Nat)
    (hpres : lookupA id m.presignatures = none) :
    (∀ g, lookupA id m.generators = some g →
      m.get_or_generate tm id t0 t1 presign now =
        (Except.ok g.protocol, m, tm)) ∧
    (∀ tr0 tr1 tm2 script,
      lookupA id m.generators = none →
      tm.take_two t0 t1 false = Except.ok (tr0, tr1, tm2) →
      presign tr0 tr1 = Except.ok script →
      m.get_or_generate tm id t0 t1 presign now =
        (Except.ok script,
         { m with generators :=
             (insertA id (PresignatureGenerator.new script tr0.id tr1.id false now)
               m.generators) },
         tm2) ∧
      keysA (insertA id (PresignatureGenerator.new script tr0.id tr1.id false now)
          m.generators) = id :: keysA m.generators ∧
      ({ m with generators :=
           (insertA id (PresignatureGenerator.new script tr0.id tr1.id false now)
             m.generators) } : PresignatureManager).get_or_generate
          tm2 id t0 t1 presign now2 =
        (Except.ok script,
         { m with generators :=
             (insertA id (PresignatureGenerator.new script tr0.id tr1.id false now)
               m.generators) },
         tm2)) := by
  constructor
  · intro g hg
    simp [PresignatureManager.get_or_generate, hpres, hg]
  · intro tr0 tr1 tm2 script hgen htake hsig
    have hnotin : id ∉ keysA m.generators := (lookupA_eq_none id _).mp hgen
    refine ⟨?_, keysA_insertA_of_not_mem _ hnotin, ?_⟩
    · simp [PresignatureManager.get_or_generate, hpres, hgen, htake, hsig,
        PresignatureGenerator.new]
    · simp [PresignatureManager.get_or_generate, hpres, lookupA_insertA_self,
        PresignatureGenerator.new]

def c7tm : TripleManager :=
  { triples := [(100, { id := 100, share := 1, public := 2 }),
                (101, { id := 101, share := 3, public := 4 })] }

def c7m : PresignatureManager := PresignatureManager.new [0, 1] 1 2 6

def presignWaits : Triple → Triple →
    Except InitializationError PresignatureProtocol :=
  fun _ _ => Except.ok [Except.ok ProtocolAction.Wait]

/-- Witness for C7: joining unknown id 3 with both triples available
creates one generator; its conclusions are instantiated concretely. -/
theorem C7_idempotent_join_witness :
    lookupA 3 c7m.presignatures = none ∧
    ((∀ g, lookupA 3 c7m.generators = some g →
       c7m.get_or_generate c7tm 3 100 101 presignWaits 0 =
         (Except.ok g.protocol, c7m, c7tm)) ∧
     (∀ tr0 tr1 tm2 script,
       lookupA 3 c7m.generators = none →
       c7tm.take_two 100 101 false = Except.ok (tr0, tr1, tm2) →
       presignWaits tr0 tr1 = Except.ok script →
       c7m.get_or_generate c7tm 3 100 101 presignWaits 0 =
         (Except.ok script,
          { c7m with generators :=
              (insertA 3 (PresignatureGenerator.new script tr0.id tr1.id false 0)
                c7m.generators) },
          tm2) ∧
       keysA (insertA 3 (PresignatureGenerator.new script tr0.id tr1.id false 0)
           c7m.generators) = 3 :: keysA c7m.generators ∧
       ({ c7m with generators :=
            (insertA 3 (PresignatureGenerator.new script tr0.id tr1.id false 0)
              c7m.generators) } : PresignatureManager).get_or_generate
           tm2 3 100 101 presignWaits 1 =
         (Except.ok script,
          { c7m with generators :=
              (insertA 3 (PresignatureGenerator.new script tr0.id tr1.id false 0)
                c7m.generators) },
          tm2))) :=
  ⟨by decide, C7_idempotent_join c7m c7tm 3 100 101 presignWaits 0 1 (by decide)⟩

/-! ### Concrete runs used by C5 and by the C2 counterexample -/

/-- Extract the manager from a successful `generate`, with an explicit
fallback (every use below also proves the call succeeded). -/
def getOkM (r : Except InitializationError PresignatureManager)
    (d : PresignatureManager) : PresignatureManager :=
  match r with
  | Except.ok m => m
  | Except.error _ => d

def tripleA : Triple := { id := 100, share := 1, public := 2 }

def tripleB : Triple := { id := 101, share := 3, public := 4 }

def c5m0 : PresignatureManager := PresignatureManager.new [0, 1] 0 2 9

def c5gen : Except InitializationError PresignatureManager :=
  c5m0.generate 7 tripleA tripleB
    (Except.ok [Except.ok (ProtocolAction.Return 42)]) 0

def c5m1 : PresignatureManager := getOkM c5gen c5m0

def c5m2 : PresignatureManager := (c5m1.poke 0).2

def c5m3 : PresignatureManager := (c5m2.take 7).2

/-- Claim C5: `take` does not touch the mine queue, so taking a completed
self-initiated presignature by id leaves its identifier queued; the very
next `take_mine` then hits the `.unwrap()` on a missing map entry
(embedded as the `none` result) instead of returning cleanly.  The run is
fully concrete: `generate` id 7 with a terminal engine, `poke` completes
it into `presignatures` and `mine`, `take 7` removes the map entry only,
and `take_mine` panics. -/
theorem C5_take_breaks_take_mine :
    c5gen.isOk = true ∧
    c5m2.mine = [7] ∧
    (lookupA 7 c5m2.presignatures).isSome = true ∧
    (c5m2.take 7).1.isSome = true ∧
    c5m3.mine = [7] ∧
    lookupA 7 c5m3.presignatures = none ∧
    c5m3.take_mine = none := by
  decide

theorem isSome_false_eq_none {α : Type} {o : Option α}
    (h : o.isSome = false) : o = none := by
  cases o
  · rfl
  · simp at h

theorem poke_snd (m : PresignatureManager) (now : Nat) :
    (m.poke now).2 =
      { m with
        generators := (pokeGens m.participants m.me m.epoch now m.generators
          m.presignatures m.mine).generators
        presignatures := (pokeGens m.participants m.me m.epoch now m.generators
          m.presignatures m.mine).presignatures
        mine := (pokeGens m.participants m.me m.epoch now m.generators
          m.presignatures m.mine).mine } := by
  rw [PresignatureManager.poke]
  rcases h : (pokeGens m.participants m.me m.epoch now m.generators
    m.presignatures m.mine).err with _ | e <;> simp [h]

theorem poke_fst_of_err (m : PresignatureManager) (now : Nat)
    (e : ProtocolError)
    (h : (pokeGens m.participants m.me m.epoch now m.generators
      m.presignatures m.mine).err = some e) :
    (m.poke now).1 = Except.error e := by
  rw [PresignatureManager.poke]
  simp [h]

theorem poke_fst_of_ok (m : PresignatureManager) (now : Nat)
    (h : (pokeGens m.participants m.me m.epoch now m.generators
      m.presignatures m.mine).err = none) :
    (m.poke now).1 = Except.ok (pokeGens m.participants m.me m.epoch now
      m.generators m.presignatures m.mine).messages := by
  rw [PresignatureManager.poke]
  simp [h]

def c2m0 : PresignatureManager := PresignatureManager.new [0, 1] 0 2 1

def c2gen1 : Except InitializationError PresignatureManager :=
  c2m0.generate 5 tripleA tripleB
    (Except.ok [Except.ok (ProtocolAction.Return 11)]) 0

def c2m1 : PresignatureManager := getOkM c2gen1 c2m0

def c2m2 : PresignatureManager := (c2m1.poke 0).2

def c2gen2 : Except InitializationError PresignatureManager :=
  c2m2.generate 5 tripleA tripleB
    (Except.ok [Except.ok ProtocolAction.Wait]) 1

def c2m3 : PresignatureManager := getOkM c2gen2 c2m2

/-- Counterexample to claim C2 as stated: from the reachable state `c2m2`
(fresh manager, `generate` id 5 with a terminal engine, `poke`), a second
`generate` whose random draw collides with the completed id 5 succeeds
and leaves 5 a key of both the presignatures map and the generators map
simultaneously — `generate` does not preserve the disjointness
invariant. -/
theorem C2_cex :
    (lookupA 5 c2m2.presignatures).isSome = true ∧
    (lookupA 5 c2m2.generators).isSome = false ∧
    c2gen2.isOk = true ∧
    (lookupA 5 c2m3.presignatures).isSome = true ∧
    (lookupA 5 c2m3.generators).isSome = true := by
  decide

/-- Claim C2 as amended: from any state whose generator keys are distinct
and which satisfies the disjointness invariant, `get_or_generate`,
`poke`, `take` and `take_mine` preserve the invariant unconditionally,
and `generate` preserves it exactly under the side condition the
counterexample forces — its randomly drawn id must not already be a key
of the presignatures map (the source performs no such check). -/
theorem C2_amended (m : PresignatureManager)
    (hnodup : (keysA m.generators).Nodup)
    (hdisj : ∀ j ∈ keysA m.presignatures, j ∉ keysA m.generators) :
    (∀ id t0 t1 presign now m2,
      id ∉ keysA m.presignatures →
      m.generate id t0 t1 presign now = Except.ok m2 →
      ∀ j ∈ keysA m2.presignatures, j ∉ keysA m2.generators) ∧
    (∀ tm id t0 t1 presign now,
      ∀ j ∈ keysA (m.get_or_generate tm id t0 t1 presign now).2.1.presignatures,
        j ∉ keysA (m.get_or_generate tm id t0 t1 presign now).2.1.generators) ∧
    (∀ now, ∀ j ∈ keysA (m.poke now).2.presignatures,
      j ∉ keysA (m.poke now).2.generators) ∧
    (∀ id, ∀ j ∈ keysA (m.take id).2.presignatures,
      j ∉ keysA (m.take id).2.generators) ∧
    (∀ r, m.take_mine = some r →
      ∀ j ∈ keysA r.2.presignatures, j ∉ keysA r.2.generators) := by
  refine ⟨?_, ?_, ?_, ?_, ?_⟩
  · intro id t0 t1 presign now m2 hid hok j hj
    rcases presign with e | script
    · simp [PresignatureManager.generate] at hok
    · simp only [PresignatureManager.generate, Except.ok.injEq] at hok
      subst hok
      simp only at hj ⊢
      intro hmem
      rcases mem_keysA_insertA hmem with h1 | h1
      · exact hid (h1 ▸ hj)
      · exact hdisj j hj h1
  · intro tm id t0 t1 presign now
    cases hp : (lookupA id m.presignatures).isSome with
    | true =>
      simp [PresignatureManager.get_or_generate, hp]
      exact hdisj
    | false =>
      have hidp : id ∉ keysA m.presignatures :=
        (lookupA_eq_none id _).mp (isSome_false_eq_none hp)
      rcases hg : lookupA id m.generators with _ | g
      · rcases ht : tm.take_two t0 t1 false with miss | ⟨tr0, tr1, tm2⟩
        · simp [PresignatureManager.get_or_generate, hp, hg, ht]
          exact hdisj
        · rcases hs : presign tr0 tr1 with e | script
          · simp [PresignatureManager.get_or_generate, hp, hg, ht, hs]
            exact hdisj
          · simp only [PresignatureManager.get_or_generate, hp, hg, ht, hs,
              Bool.false_eq_true, if_false]
            intro j hj hmem
            rcases mem_keysA_insertA hmem with h1 | h1
            · exact hidp (h1 ▸ hj)
            · exact hdisj j hj h1
      · simp [PresignatureManager.get_or_generate, hp, hg]
        exact hdisj
  · intro now j hj
    rw [poke_snd] at hj ⊢
    exact pokeGens_disjoint m.participants m.me m.epoch now m.generators
      m.presignatures m.mine hnodup hdisj j hj
  · intro id j hj
    rcases hx : lookupA id m.presignatures with _ | p
    · simp [PresignatureManager.take, hx] at hj ⊢
      exact hdisj j hj
    · simp [PresignatureManager.take, hx] at hj ⊢
      exact hdisj j (mem_keysA_eraseA hj)
  · intro r hr j hj
    rcases hm : m.mine with _ | ⟨id, rest⟩
    · simp [PresignatureManager.take_mine, hm] at hr
      subst hr
      exact hdisj j hj
    · rcases hx : lookupA id m.presignatures with _ | p
      · simp [PresignatureManager.take_mine, hm, hx] at hr
      · simp [PresignatureManager.take_mine, hm, hx] at hr
        subst hr
        simp at hj
        exact hdisj j (mem_keysA_eraseA hj)

def c2wm : PresignatureManager :=
  { presignatures := [(1, { id := 1, output := 10 })],
    generators := [(2, { protocol := [Except.ok ProtocolAction.Wait],
                         triple0 := 100, triple1 := 101, mine := false,
                         timestamp := 0 })],
    mine := [1],
    participants := [0, 1], me := 0, threshold := 2, epoch := 2 }

/-- Witness for the amended C2 at a concrete state with one completed
presignature and one in-flight generator. -/
theorem C2_amended_witness :
    ((keysA c2wm.generators).Nodup ∧
     (∀ j ∈ keysA c2wm.presignatures, j ∉ keysA c2wm.generators)) ∧
    ((∀ id t0 t1 presign now m2,
       id ∉ keysA c2wm.presignatures →
       c2wm.generate id t0 t1 presign now = Except.ok m2 →
       ∀ j ∈ keysA m2.presignatures, j ∉ keysA m2.generators) ∧
     (∀ tm id t0 t1 presign now,
       ∀ j ∈ keysA (c2wm.get_or_generate tm id t0 t1 presign now).2.1.presignatures,
         j ∉ keysA (c2wm.get_or_generate tm id t0 t1 presign now).2.1.generators) ∧
     (∀ now, ∀ j ∈ keysA (c2wm.poke now).2.presignatures,
       j ∉ keysA (c2wm.poke now).2.generators) ∧
     (∀ id, ∀ j ∈ keysA (c2wm.take id).2.presignatures,
       j ∉ keysA (c2wm.take id).2.generators) ∧
     (∀ r, c2wm.take_mine = some r →
       ∀ j ∈ keysA r.2.presignatures, j ∉ keysA r.2.generators)) :=
  ⟨⟨by decide, by decide⟩, C2_amended c2wm (by decide) (by decide)⟩

@[simp] theorem keysA_append {α : Type} (l1 l2 : List (Nat × α)) :
    keysA (l1 ++ l2) = keysA l1 ++ keysA l2 := by
  simp [keysA]

/-- Claim C3: a generator whose elapsed time exceeds the fixed protocol
timeout fails on the next poke with the timed-out `ProtocolError` without
consulting the engine (its script is untouched), and the manager `poke`
removes it from the in-flight set without producing a presignature for
its id. -/
theorem C3_timeout_drops (m : PresignatureManager) (now : Nat)
    (l1 l2 : List (PresignatureId × PresignatureGenerator))
    (id : PresignatureId) (g : PresignatureGenerator)
    (hsplit : m.generators = l1 ++ (id, g) :: l2)
    (hid : id ∉ keysA (l1 ++ l2))
    (hpres : lookupA id m.presignatures = none)
    (htime : PROTOCOL_TIMEOUT < now - g.timestamp) :
    g.poke now = (Except.error presignatureTimedOut, g) ∧
    lookupA id (m.poke now).2.generators = none ∧
    lookupA id (m.poke now).2.presignatures = none := by
  have hid1 : id ∉ keysA l1 := by
    intro h
    exact hid (by simp [h])
  have hid2 : id ∉ keysA l2 := by
    intro h
    exact hid (by simp [h])
  have hloop := pokeLoop_timeout m.participants m.me m.epoch id g.triple0
    g.triple1 g.timestamp now g.protocol htime
  have hcons : ∀ (P : List (PresignatureId × Presignature))
      (Q : List PresignatureId),
      pokeGens m.participants m.me m.epoch now ((id, g) :: l2) P Q =
        { messages := (pokeGens m.participants m.me m.epoch now l2 P Q).messages
          generators := (pokeGens m.participants m.me m.epoch now l2 P Q).generators
          presignatures :=
            (pokeGens m.participants m.me m.epoch now l2 P Q).presignatures
          mine := (pokeGens m.participants m.me m.epoch now l2 P Q).mine
          err := lastErr (some presignatureTimedOut)
            (pokeGens m.participants m.me m.epoch now l2 P Q).err } := by
    intro P Q
    simp [pokeGens, hloop]
  refine ⟨?_, ?_, ?_⟩
  · simp [PresignatureGenerator.poke, htime]
  · rw [poke_snd, hsplit, pokeGens_append]
    simp only [hcons]
    apply (lookupA_eq_none _ _).mpr
    intro hmem
    rw [keysA_append] at hmem
    rcases List.mem_append.mp hmem with h | h
    · exact hid1 (pokeGens_gens_subset _ _ _ _ l1 _ _ id h)
    · exact hid2 (pokeGens_gens_subset _ _ _ _ l2 _ _ id h)
  · rw [poke_snd, hsplit, pokeGens_append]
    simp only [hcons]
    rw [pokeGens_presigs_lookup _ _ _ _ l2 _ _ id hid2,
      pokeGens_presigs_lookup _ _ _ _ l1 _ _ id hid1]
    exact hpres

def c3g : PresignatureGenerator :=
  { protocol := [Except.ok (ProtocolAction.Return 42)],
    triple0 := 100, triple1 := 101, mine := true, timestamp := 0 }

def c3wm : PresignatureManager :=
  { presignatures := [], generators := [(1, c3g)], mine := [],
    participants := [0, 1], me := 0, threshold := 2, epoch := 5 }

/-- Witness for C3: one expired generator (even holding a pending terminal
action) fails and is dropped at `now = 200` with `PROTOCOL_TIMEOUT = 100`. -/
theorem C3_timeout_drops_witness :
    (c3wm.generators = [] ++ (1, c3g) :: [] ∧
     (1 : Nat) ∉ keysA ([] ++ ([] : List (PresignatureId × PresignatureGenerator))) ∧
     lookupA 1 c3wm.presignatures = none ∧
     PROTOCOL_TIMEOUT < 200 - c3g.timestamp) ∧
    (c3g.poke 200 = (Except.error presignatureTimedOut, c3g) ∧
     lookupA 1 (c3wm.poke 200).2.generators = none ∧
     lookupA 1 (c3wm.poke 200).2.presignatures = none) :=
  ⟨⟨by decide, by decide, by decide, by decide⟩,
   C3_timeout_drops c3wm 200 [] [] 1 c3g (by decide) (by decide) (by decide)
     (by decide)⟩

def c1gFail : PresignatureGenerator :=
  { protocol := [Except.ok (ProtocolAction.SendMany 3),
                 Except.error (ProtocolError.Other 1)],
    triple0 := 100, triple1 := 101, mine := true, timestamp := 0 }

def c1gOk : PresignatureGenerator :=
  { protocol := [Except.ok (ProtocolAction.SendMany 4),
                 Except.ok ProtocolAction.Wait],
    triple0 := 102, triple1 := 103, mine := true, timestamp := 0 }

def c1m : PresignatureManager :=
  { presignatures := [], generators := [(1, c1gFail), (2, c1gOk)], mine := [],
    participants := [0, 1], me := 0, threshold := 2, epoch := 5 }

/-- Counterexample to claim C1 as stated: with one broadcasting generator
and one generator that broadcasts and then raises a `ProtocolError`, the
traversal collects four outbound messages, yet `poke` returns the error —
the batch is not returned to the caller.  Only the failing generator is
dropped (generator 2 stays in-flight). -/
theorem C1_cex :
    (c1m.poke 0).1 = Except.error (ProtocolError.Other 1) ∧
    (pokeGens c1m.participants c1m.me c1m.epoch 0 c1m.generators
      c1m.presignatures c1m.mine).messages.length = 4 ∧
    keysA (c1m.poke 0).2.generators = [2] := by
  decide

/-- Claim C1 as amended: a `ProtocolError` raised by one generator drops
only that generator and does not abort the others — the manager state
after `poke` (completed map, mine queue, retained generators) is exactly
the state produced by poking the same manager without the failing entry —
but `poke` then returns the error rather than the collected message
batch (the batch is returned only when no generator fails). -/
theorem C1_amended (m : PresignatureManager) (now : Nat)
    (l1 l2 : List (PresignatureId × PresignatureGenerator))
    (id : PresignatureId) (g : PresignatureGenerator) (e : ProtocolError)
    (hsplit : m.generators = l1 ++ (id, g) :: l2)
    (hid : id ∉ keysA (l1 ++ l2))
    (hfail : (pokeLoop m.participants m.me m.epoch id g.triple0 g.triple1
      g.timestamp now g.protocol).2 = GenOutcome.Failed e) :
    (m.poke now).2.presignatures =
      (({ m with generators := l1 ++ l2 } :
          PresignatureManager).poke now).2.presignatures ∧
    (m.poke now).2.mine =
      (({ m with generators := l1 ++ l2 } :
          PresignatureManager).poke now).2.mine ∧
    (m.poke now).2.generators =
      (({ m with generators := l1 ++ l2 } :
          PresignatureManager).poke now).2.generators ∧
    lookupA id (m.poke now).2.generators = none ∧
    (m.poke now).1.isOk = false := by
  have hid1 : id ∉ keysA l1 := by
    intro h
    exact hid (by simp [h])
  have hid2 : id ∉ keysA l2 := by
    intro h
    exact hid (by simp [h])
  have hr : pokeLoop m.participants m.me m.epoch id g.triple0 g.triple1
      g.timestamp now g.protocol =
      ((pokeLoop m.participants m.me m.epoch id g.triple0 g.triple1
        g.timestamp now g.protocol).1, GenOutcome.Failed e) := by
    rw [← hfail]
  have hcons : ∀ (P : List (PresignatureId × Presignature))
      (Q : List PresignatureId),
      pokeGens m.participants m.me m.epoch now ((id, g) :: l2) P Q =
        { messages := (pokeLoop m.participants m.me m.epoch id g.triple0
            g.triple1 g.timestamp now g.protocol).1 ++
            (pokeGens m.participants m.me m.epoch now l2 P Q).messages
          generators := (pokeGens m.participants m.me m.epoch now l2 P Q).generators
          presignatures :=
            (pokeGens m.participants m.me m.epoch now l2 P Q).presignatures
          mine := (pokeGens m.participants m.me m.epoch now l2 P Q).mine
          err := lastErr (some e)
            (pokeGens m.participants m.me m.epoch now l2 P Q).err } := by
    intro P Q
    conv_lhs => rw [pokeGens, hr]
  have herr : ∃ e2, (pokeGens m.participants m.me m.epoch now m.generators
      m.presignatures m.mine).err = some e2 := by
    rw [hsplit, pokeGens_append]
    simp only [hcons]
    rcases hX : (pokeGens m.participants m.me m.epoch now l2
        (pokeGens m.participants m.me m.epoch now l1 m.presignatures
          m.mine).presignatures
        (pokeGens m.participants m.me m.epoch now l1 m.presignatures
          m.mine).mine).err with _ | e2
    · exact ⟨e, rfl⟩
    · exact ⟨e2, rfl⟩
  refine ⟨?_, ?_, ?_, ?_, ?_⟩
  · rw [poke_snd, poke_snd, hsplit, pokeGens_append]
    simp only [hcons]
    simp [pokeGens_append]
  · rw [poke_snd, poke_snd, hsplit, pokeGens_append]
    simp only [hcons]
    simp [pokeGens_append]
  · rw [poke_snd, poke_snd, hsplit, pokeGens_append]
    simp only [hcons]
    simp [pokeGens_append]
  · rw [poke_snd, hsplit, pokeGens_append]
    simp only [hcons]
    apply (lookupA_eq_none _ _).mpr
    intro hmem
    rw [keysA_append] at hmem
    rcases List.mem_append.mp hmem with h | h
    · exact hid1 (pokeGens_gens_subset _ _ _ _ l1 _ _ id h)
    · exact hid2 (pokeGens_gens_subset _ _ _ _ l2 _ _ id h)
  · obtain ⟨e2, he2⟩ := herr
    rw [poke_fst_of_err m now e2 he2]
    rfl

/-- Witness for the amended C1: the failing generator 1 next to the
broadcasting generator 2; the state after `poke` matches the run without
generator 1, and the call returns an error. -/
theorem C1_amended_witness :
    (c1m.generators = [] ++ (1, c1gFail) :: [(2, c1gOk)] ∧
     (1 : Nat) ∉ keysA ([] ++ [(2, c1gOk)]) ∧
     (pokeLoop c1m.participants c1m.me c1m.epoch 1 c1gFail.triple0
       c1gFail.triple1 c1gFail.timestamp 0 c1gFail.protocol).2 =
       GenOutcome.Failed (ProtocolError.Other 1)) ∧
    ((c1m.poke 0).2.presignatures =
       (({ c1m with generators := [] ++ [(2, c1gOk)] } :
           PresignatureManager).poke 0).2.presignatures ∧
     (c1m.poke 0).2.mine =
       (({ c1m with generators := [] ++ [(2, c1gOk)] } :
           PresignatureManager).poke 0).2.mine ∧
     (c1m.poke 0).2.generators =
       (({ c1m with generators := [] ++ [(2, c1gOk)] } :
           PresignatureManager).poke 0).2.generators ∧
     lookupA 1 (c1m.poke 0).2.generators = none ∧
     (c1m.poke 0).1.isOk = false) :=
  ⟨⟨by decide, by decide, by decide⟩,
   C1_amended c1m 0 [] [(2, c1gOk)] 1 c1gFail (ProtocolError.Other 1)
     (by decide) (by decide) (by decide)⟩
